import Mathlib

/-!
Verification of the AI-marketplace coordination core against its
specification.  The Python source is embedded shallowly: dictionaries
become `String → Option _` maps, `Decimal`/`float` arithmetic becomes `ℚ`,
exceptions become explicit error values returned next to the post-state
(Python mutations performed before a `raise` persist, so every operation
returns the state it leaves behind together with an optional error).
-/

namespace AIMarketplace

/-- Pointwise update of a dictionary modelled as a partial map. -/
def updMap {α : Type} (m : String → Option α) (k : String) (v : Option α) :
    String → Option α :=
  fun k2 => if k2 = k then v else m k2

/-- Python `max(iterable, default=d)`: the maximum of the list, or `d`
when the list is empty. -/
def pyMax (l : List ℚ) (d : ℚ) : ℚ :=
  match l with
  | [] => d
  | x :: xs => xs.foldl max x

/-! ## Escrow manager (src/escrow_manager.py) -/

/-- Escrow statuses, as the string statuses of `escrow_manager.py`. -/
inductive EscrowStatus
  | locked
  | completed
  | refunded
  | rejected_overcharge
deriving DecidableEq

/-- One escrow record, the dict stored in `self.escrows[job_id]`
(the `created_at` wall-clock timestamp is not modelled). -/
structure EscrowRecord where
  buyer : String
  seller : Option String
  max_price : ℚ
  actual_price : Option ℚ
  locked_amount : ℚ
  status : EscrowStatus
deriving DecidableEq

/-- Errors an escrow operation can raise.  `keyError` models Python's
`KeyError` raised by `d[k] -= x` / `d[k] += x` when `k` is absent. -/
inductive EscrowErr
  | insufficientFunds
  | overcharge
  | escrowNotFound
  | invalidState
  | keyError
deriving DecidableEq

/-- The `EscrowManager` instance state: `self.escrows` and
`self.agent_wallets`. -/
structure EscrowState where
  escrows : String → Option EscrowRecord
  agent_wallets : String → Option ℚ

/-- `EscrowManager.__init__`: empty escrows, three seeded demo wallets. -/
def initEscrowState : EscrowState :=
  { escrows := fun _ => none,
    agent_wallets :=
      updMap (updMap (updMap (fun _ => none) "PM_Budget" (some 10))
        "PM_Quality" (some 10)) "PM_Balanced" (some 10) }

/-- `EscrowManager.get_balance`: `self.agent_wallets.get(agent_id, 0.00)`. -/
def get_balance (s : EscrowState) (agent_id : String) : ℚ :=
  (s.agent_wallets agent_id).getD 0

/-- `EscrowManager.create_escrow`.  Checks the buyer's balance, then
debits the buyer and stores a fresh `locked` record under `job_id`
(overwriting any record already there — the function never looks at
`self.escrows[job_id]` before assigning it). -/
def create_escrow (s : EscrowState) (job_id buyer_id : String) (max_price : ℚ) :
    EscrowState × Option EscrowErr :=
  let buyer_balance := (s.agent_wallets buyer_id).getD 0
  if buyer_balance < max_price then
    (s, some .insufficientFunds)
  else
    match s.agent_wallets buyer_id with
    | none => (s, some .keyError)
    | some b =>
      let s1 := { s with agent_wallets := updMap s.agent_wallets buyer_id (some (b - max_price)) }
      let record : EscrowRecord :=
        { buyer := buyer_id, seller := none, max_price := max_price,
          actual_price := none, locked_amount := max_price, status := .locked }
      ({ s1 with escrows := updMap s1.escrows job_id (some record) }, none)

/-- `EscrowManager.release_payment`.  Looks up the escrow, rejects
non-`locked` records, enforces the maximum price (overcharge: refund the
buyer, mark `rejected_overcharge`, raise), otherwise pays the seller,
refunds the remainder to the buyer and marks the record `completed`. -/
def release_payment (s : EscrowState) (job_id seller_id : String) (actual_price : ℚ) :
    EscrowState × Option EscrowErr :=
  match s.escrows job_id with
  | none => (s, some .escrowNotFound)
  | some escrow =>
    if escrow.status ≠ .locked then
      (s, some .invalidState)
    else if actual_price > escrow.max_price then
      match s.agent_wallets escrow.buyer with
      | none => (s, some .keyError)
      | some b =>
        let w1 := updMap s.agent_wallets escrow.buyer (some (b + escrow.locked_amount))
        let s1 := { s with agent_wallets := w1 }
        let rejected : EscrowRecord := { escrow with status := .rejected_overcharge }
        ({ s1 with escrows := updMap s1.escrows job_id (some rejected) }, some .overcharge)
    else
      let sellerBal := (s.agent_wallets seller_id).getD 0
      let w1 := updMap s.agent_wallets seller_id (some (sellerBal + actual_price))
      let s1 := { s with agent_wallets := w1 }
      let refund := escrow.locked_amount - actual_price
      match s1.agent_wallets escrow.buyer with
      | none => (s1, some .keyError)
      | some b =>
        let w2 := updMap s1.agent_wallets escrow.buyer (some (b + refund))
        let s2 := { s1 with agent_wallets := w2 }
        let done : EscrowRecord :=
          { escrow with
              seller := some seller_id
              actual_price := some actual_price
              status := .completed }
        ({ s2 with escrows := updMap s2.escrows job_id (some done) }, none)

/-- `EscrowManager.refund`: full refund when the record is `locked`,
silent no-op when it was already processed. -/
def refund (s : EscrowState) (job_id : String) : EscrowState × Option EscrowErr :=
  match s.escrows job_id with
  | none => (s, some .escrowNotFound)
  | some escrow =>
    if escrow.status ≠ .locked then
      (s, none)
    else
      match s.agent_wallets escrow.buyer with
      | none => (s, some .keyError)
      | some b =>
        let w1 := updMap s.agent_wallets escrow.buyer (some (b + escrow.locked_amount))
        let s1 := { s with agent_wallets := w1 }
        let refunded : EscrowRecord := { escrow with status := .refunded }
        ({ s1 with escrows := updMap s1.escrows job_id (some refunded) }, none)

/-! ## Escrow claims -/

/-- C1 (counterexample): `create_escrow` has no duplicate-job check.
Starting from the initial state, a first `create_escrow("job1", "PM_Budget", 3)`
leaves balance 7; a second identical call does NOT fail — it succeeds
(`none` error), debits the buyer again (balance 4), so state does change. -/
theorem create_escrow_duplicate_not_rejected :
    ((create_escrow (create_escrow initEscrowState "job1" "PM_Budget" 3).1
        "job1" "PM_Budget" 3).2 = none) ∧
    get_balance (create_escrow initEscrowState "job1" "PM_Budget" 3).1 "PM_Budget" = 7 ∧
    get_balance (create_escrow (create_escrow initEscrowState "job1" "PM_Budget" 3).1
        "job1" "PM_Budget" 3).1 "PM_Budget" = 4 := by
  norm_num [create_escrow, initEscrowState, get_balance, updMap]

/-- C1 (amended): a second `create_escrow` for a `jobId` that already has a
record is not rejected: when the buyer's wallet covers `maxPrice` the call
succeeds, debits the buyer by `maxPrice` again, and overwrites the existing
record with a fresh `locked` one. -/
theorem create_escrow_duplicate_overwrites (s : EscrowState) (job buyer : String)
    (p b : ℚ) (hdup : (s.escrows job).isSome) (hb : s.agent_wallets buyer = some b)
    (hcov : p ≤ b) :
    (create_escrow s job buyer p).2 = none ∧
    get_balance (create_escrow s job buyer p).1 buyer = b - p ∧
    (create_escrow s job buyer p).1.escrows job =
      some { buyer := buyer, seller := none, max_price := p, actual_price := none,
             locked_amount := p, status := EscrowStatus.locked } := by
  simp [create_escrow, hb, not_lt.mpr hcov, get_balance, updMap]

/-- Witness for the amended C1 theorem at a concrete duplicated job. -/
theorem create_escrow_duplicate_overwrites_witness :
    (create_escrow (create_escrow initEscrowState "job1" "PM_Budget" 3).1
        "job1" "PM_Budget" 3).2 = none ∧
    get_balance (create_escrow (create_escrow initEscrowState "job1" "PM_Budget" 3).1
        "job1" "PM_Budget" 3).1 "PM_Budget" = 7 - 3 ∧
    (create_escrow (create_escrow initEscrowState "job1" "PM_Budget" 3).1
        "job1" "PM_Budget" 3).1.escrows "job1" =
      some { buyer := "PM_Budget", seller := none, max_price := 3, actual_price := none,
             locked_amount := 3, status := EscrowStatus.locked } :=
  create_escrow_duplicate_overwrites
    (create_escrow initEscrowState "job1" "PM_Budget" 3).1 "job1" "PM_Budget" 3 7
    (by norm_num [create_escrow, initEscrowState, updMap])
    (by norm_num [create_escrow, initEscrowState, updMap]) (by norm_num)

/-- C2: releasing a locked escrow with `actualPrice` strictly above the locked
amount fails with `OverchargeDetected`, restores the buyer's balance to its
pre-lock value `b0`, leaves the seller's balance unchanged, and marks the
record `rejected_overcharge`. -/
theorem release_payment_overcharge (s : EscrowState) (job buyer seller : String)
    (maxp p b0 : ℚ) (hb : s.agent_wallets buyer = some b0) (hcov : maxp ≤ b0)
    (hp : maxp < p) (hsb : seller ≠ buyer) :
    (release_payment (create_escrow s job buyer maxp).1 job seller p).2 =
      some EscrowErr.overcharge ∧
    get_balance (release_payment (create_escrow s job buyer maxp).1 job seller p).1 buyer
      = b0 ∧
    get_balance (release_payment (create_escrow s job buyer maxp).1 job seller p).1 seller
      = get_balance s seller ∧
    (release_payment (create_escrow s job buyer maxp).1 job seller p).1.escrows job =
      some { buyer := buyer, seller := none, max_price := maxp, actual_price := none,
             locked_amount := maxp, status := EscrowStatus.rejected_overcharge } := by
  simp [create_escrow, hb, not_lt.mpr hcov, release_payment, get_balance, updMap, hp, hsb,
    Ne.symm hsb]

/-- Witness for the C2 overcharge theorem at a concrete run. -/
theorem release_payment_overcharge_witness :
    (release_payment (create_escrow initEscrowState "j" "PM_Budget" 3).1 "j" "SellerX" 5).2 =
      some EscrowErr.overcharge ∧
    get_balance (release_payment (create_escrow initEscrowState "j" "PM_Budget" 3).1
        "j" "SellerX" 5).1 "PM_Budget" = 10 ∧
    get_balance (release_payment (create_escrow initEscrowState "j" "PM_Budget" 3).1
        "j" "SellerX" 5).1 "SellerX" = get_balance initEscrowState "SellerX" ∧
    (release_payment (create_escrow initEscrowState "j" "PM_Budget" 3).1
        "j" "SellerX" 5).1.escrows "j" =
      some { buyer := "PM_Budget", seller := none, max_price := 3, actual_price := none,
             locked_amount := 3, status := EscrowStatus.rejected_overcharge } :=
  release_payment_overcharge initEscrowState "j" "PM_Budget" "SellerX" 3 5 10
    (by norm_num [initEscrowState, updMap]) (by norm_num) (by norm_num) (by simp)

/-- C3: releasing a locked escrow with `0 ≤ actualPrice ≤ lockedAmount`
credits the seller by exactly `actualPrice`, leaves the buyer at
`b0 - actualPrice` (i.e. refunds `lockedAmount - actualPrice` on top of the
post-lock balance `b0 - lockedAmount`), records seller and actual price with
status `completed`, and the seller credit plus the buyer refund equal the
locked amount exactly. -/
theorem release_payment_normal (s : EscrowState) (job buyer seller : String)
    (maxp p b0 : ℚ) (hb : s.agent_wallets buyer = some b0) (hcov : maxp ≤ b0)
    (hp0 : 0 ≤ p) (hple : p ≤ maxp) (hsb : seller ≠ buyer) :
    (release_payment (create_escrow s job buyer maxp).1 job seller p).2 = none ∧
    get_balance (release_payment (create_escrow s job buyer maxp).1 job seller p).1 seller
      = get_balance s seller + p ∧
    get_balance (release_payment (create_escrow s job buyer maxp).1 job seller p).1 buyer
      = b0 - p ∧
    (release_payment (create_escrow s job buyer maxp).1 job seller p).1.escrows job =
      some { buyer := buyer, seller := some seller, max_price := maxp,
             actual_price := some p, locked_amount := maxp,
             status := EscrowStatus.completed } ∧
    (get_balance (release_payment (create_escrow s job buyer maxp).1 job seller p).1 seller
        - get_balance s seller) +
      (get_balance (release_payment (create_escrow s job buyer maxp).1 job seller p).1 buyer
        - get_balance (create_escrow s job buyer maxp).1 buyer) = maxp := by
  have hnp : ¬ p > maxp := not_lt.mpr hple
  simp [create_escrow, hb, not_lt.mpr hcov, release_payment, get_balance, updMap, hnp, hsb,
    Ne.symm hsb]

/-- Witness for the C3 normal-release theorem: the spec's own example
scenario, balance 10, lock 0.05, release 0.03. -/
theorem release_payment_normal_witness :
    (release_payment (create_escrow initEscrowState "j" "PM_Budget" (5/100)).1
        "j" "SellerX" (3/100)).2 = none ∧
    get_balance (release_payment (create_escrow initEscrowState "j" "PM_Budget" (5/100)).1
        "j" "SellerX" (3/100)).1 "SellerX" = get_balance initEscrowState "SellerX" + 3/100 ∧
    get_balance (release_payment (create_escrow initEscrowState "j" "PM_Budget" (5/100)).1
        "j" "SellerX" (3/100)).1 "PM_Budget" = 10 - 3/100 ∧
    (release_payment (create_escrow initEscrowState "j" "PM_Budget" (5/100)).1
        "j" "SellerX" (3/100)).1.escrows "j" =
      some { buyer := "PM_Budget", seller := some "SellerX", max_price := 5/100,
             actual_price := some (3/100), locked_amount := 5/100,
             status := EscrowStatus.completed } ∧
    (get_balance (release_payment (create_escrow initEscrowState "j" "PM_Budget" (5/100)).1
          "j" "SellerX" (3/100)).1 "SellerX" - get_balance initEscrowState "SellerX") +
      (get_balance (release_payment (create_escrow initEscrowState "j" "PM_Budget" (5/100)).1
          "j" "SellerX" (3/100)).1 "PM_Budget"
        - get_balance (create_escrow initEscrowState "j" "PM_Budget" (5/100)).1 "PM_Budget")
      = 5/100 :=
  release_payment_normal initEscrowState "j" "PM_Budget" "SellerX" (5/100) (3/100) 10
    (by norm_num [initEscrowState, updMap]) (by norm_num) (by norm_num) (by norm_num) (by simp)

/-- C4: the precondition failures `InsufficientFunds` (create with balance
below `maxPrice`), `EscrowNotFound` (release or refund with no record) and
`InvalidState` (release on a non-`locked` record) each return the state
completely unchanged together with the error. -/
theorem escrow_errors_no_state_change (s : EscrowState) (job buyer seller : String)
    (p : ℚ) :
    ((s.agent_wallets buyer).getD 0 < p →
      create_escrow s job buyer p = (s, some EscrowErr.insufficientFunds)) ∧
    (s.escrows job = none →
      release_payment s job seller p = (s, some EscrowErr.escrowNotFound) ∧
      refund s job = (s, some EscrowErr.escrowNotFound)) ∧
    (∀ e : EscrowRecord, s.escrows job = some e → e.status ≠ EscrowStatus.locked →
      release_payment s job seller p = (s, some EscrowErr.invalidState)) := by
  refine ⟨fun h => ?_, fun h => ⟨?_, ?_⟩, fun e he hst => ?_⟩
  · simp [create_escrow, h]
  · simp [release_payment, h]
  · simp [refund, h]
  · simp [release_payment, he, hst]

/-- A state holding a single already-completed escrow record, used to
exercise the non-`locked` release error path. -/
def completedEscrowState : EscrowState :=
  { escrows := updMap (fun _ => none) "jobX"
      (some { buyer := "B", seller := some "S", max_price := 3, actual_price := some 2,
              locked_amount := 3, status := .completed }),
    agent_wallets := fun _ => none }

/-- Witness for the C4 error-atomicity theorem: an unfunded buyer, a missing
job, and a completed (non-locked) record, each at concrete inputs. -/
theorem escrow_errors_no_state_change_witness :
    (create_escrow initEscrowState "j" "Nobody" 1 =
      (initEscrowState, some EscrowErr.insufficientFunds)) ∧
    (release_payment initEscrowState "j" "SellerX" 1 =
      (initEscrowState, some EscrowErr.escrowNotFound)) ∧
    (refund initEscrowState "j" = (initEscrowState, some EscrowErr.escrowNotFound)) ∧
    (release_payment completedEscrowState "jobX" "SellerX" 1 =
      (completedEscrowState, some EscrowErr.invalidState)) := by
  have h1 := escrow_errors_no_state_change initEscrowState "j" "Nobody" "SellerX" 1
  have h2 := escrow_errors_no_state_change completedEscrowState "jobX" "Nobody" "SellerX" 1
  have hmem : initEscrowState.escrows "j" = none := rfl
  have hbal : (initEscrowState.agent_wallets "Nobody").getD 0 < 1 := by
    simp [initEscrowState, updMap]
  refine ⟨h1.1 hbal, (h1.2.1 hmem).1, (h1.2.1 hmem).2, ?_⟩
  exact h2.2.2 _ rfl (by simp)

/-! ## Registry (src/registry.py): data model and reputation updates -/

/-- One row of the `agents` table.  The sql `id` and `registered_at`
timestamp are not modelled; `name` is the unique key. -/
structure AgentRecord where
  name : String
  url : String
  capability : String
  price : ℚ
  rating : ℚ
  total_jobs : ℕ
  successful_jobs : ℕ
  failed_jobs : ℕ
  avg_response_time : ℚ
  uptime_pct : ℚ
  total_earned : ℚ
deriving DecidableEq

/-- Column defaults applied when `register_agent` creates a new row:
rating 5.0, zero job counters, avg_response_time 0.5, uptime 100. -/
def newAgentRecord (name url capability : String) (price : ℚ) : AgentRecord :=
  { name := name, url := url, capability := capability, price := price,
    rating := 5, total_jobs := 0, successful_jobs := 0, failed_jobs := 0,
    avg_response_time := 1/2, uptime_pct := 100, total_earned := 0 }

/-- The `success_rate` property: 100.0 when `total_jobs == 0`, else
`successful_jobs / total_jobs * 100.0`. -/
def success_rate (a : AgentRecord) : ℚ :=
  if a.total_jobs = 0 then 100 else (a.successful_jobs : ℚ) / (a.total_jobs : ℚ) * 100

/-- One row of the `transactions` table (`completed_at` not modelled). -/
structure TransactionRecord where
  id : ℕ
  buyer_id : Option String
  seller_name : String
  capability : String
  price : ℚ
  success : Bool
deriving DecidableEq

/-- One row of the `feedback` table (`created_at` not modelled). -/
structure FeedbackRecord where
  transaction_id : ℕ
  agent_name : String
  rating : ℚ
  feedback_text : Option String
  would_hire_again : Bool
deriving DecidableEq

/-- HTTP error kinds raised by the registry endpoints: 404 (`notFound`)
and 400 (`invalidInput`). -/
inductive RegistryErr
  | notFound
  | invalidInput
deriving DecidableEq

/-- The registry database. -/
structure RegistryState where
  agents : List AgentRecord
  transactions : List TransactionRecord
  feedback : List FeedbackRecord

/-- `db.query(AgentRecord).filter(AgentRecord.name == n).first()`. -/
def findAgent (l : List AgentRecord) (n : String) : Option AgentRecord :=
  l.find? (fun a => a.name == n)

/-- `db.query(TransactionRecord).filter(TransactionRecord.id == i).first()`. -/
def findTransaction (l : List TransactionRecord) (i : ℕ) : Option TransactionRecord :=
  l.find? (fun t => t.id == i)

/-- Committing a mutation of the (unique) agent row named `n`. -/
def updateAgent (l : List AgentRecord) (n : String) (f : AgentRecord → AgentRecord) :
    List AgentRecord :=
  l.map (fun a => if a.name = n then f a else a)

/-- The agent-statistics update of `report_transaction` (registry.py
lines 234-243): `total_jobs += 1`; on success `successful_jobs += 1` and
`total_earned += amount`; on failure `failed_jobs += 1` and
`rating = max(1.0, rating - 0.1)`. -/
def reportOutcomeUpdate (a : AgentRecord) (success : Bool) (amount : ℚ) : AgentRecord :=
  let a1 := { a with total_jobs := a.total_jobs + 1 }
  if success then
    { a1 with successful_jobs := a1.successful_jobs + 1,
              total_earned := a1.total_earned + amount }
  else
    { a1 with failed_jobs := a1.failed_jobs + 1,
              rating := max 1 (a1.rating - 1/10) }

/-- `report_transaction` (registry.py lines 214-264): 404 when the seller
is unknown, else append a TransactionRecord (auto-increment id) and update
the seller's statistics. -/
def report_transaction (s : RegistryState) (buyer_id seller_name : String)
    (amount : ℚ) (success : Bool) : RegistryState × Option RegistryErr :=
  match findAgent s.agents seller_name with
  | none => (s, some .notFound)
  | some agent =>
    let tr : TransactionRecord :=
      { id := s.transactions.length + 1, buyer_id := some buyer_id,
        seller_name := seller_name, capability := agent.capability,
        price := amount, success := success }
    ({ s with transactions := s.transactions ++ [tr],
              agents := updateAgent s.agents seller_name
                (fun a => reportOutcomeUpdate a success amount) }, none)

/-- The aggregate update of `rate_transaction` on the seller (registry.py
lines 366-378): running weighted average of the rating, then the job
counters.  `agent.rating or 5.0` is Python truthiness — a stored 0.0
falls back to 5.0; `agent.total_jobs or 0` is the identity on `ℕ`. -/
def rateUpdate (a : AgentRecord) (rating : ℚ) : AgentRecord :=
  let prev_total : ℕ := a.total_jobs
  let prev_rating : ℚ := if a.rating = 0 then 5 else a.rating
  let a1 := { a with total_jobs := prev_total + 1 }
  let a2 := { a1 with rating := (prev_rating * prev_total + rating) / (a1.total_jobs : ℚ) }
  if rating ≥ 3 then { a2 with successful_jobs := a2.successful_jobs + 1 }
  else { a2 with failed_jobs := a2.failed_jobs + 1 }

/-- `rate_transaction` (registry.py lines 340-391): 404 when the
transaction or its seller is unknown, else append a FeedbackRecord and
update the seller's aggregates. -/
def rate_transaction (s : RegistryState) (transaction_id : ℕ) (rating : ℚ)
    (feedback : Option String) (would_hire_again : Bool) :
    RegistryState × Option RegistryErr :=
  match findTransaction s.transactions transaction_id with
  | none => (s, some .notFound)
  | some tx =>
    match findAgent s.agents tx.seller_name with
    | none => (s, some .notFound)
    | some agent =>
      let fb : FeedbackRecord :=
        { transaction_id := transaction_id, agent_name := agent.name,
          rating := rating, feedback_text := feedback,
          would_hire_again := would_hire_again }
      ({ s with feedback := s.feedback ++ [fb],
                agents := updateAgent s.agents tx.seller_name
                  (fun a => rateUpdate a rating) }, none)

/-! ## Reputation claims -/

/-- The job-count invariant of the spec data model. -/
def jobsInv (a : AgentRecord) : Prop :=
  a.total_jobs = a.successful_jobs + a.failed_jobs

/-- C5: `total_jobs = successful_jobs + failed_jobs` holds at creation
(0 = 0 + 0) and is preserved by the `report_transaction` statistics update
and by the `rate_transaction` aggregate update, each of which increments
`total_jobs` and exactly one of the other two counters. -/
theorem total_jobs_invariant :
    (∀ name url capability price, jobsInv (newAgentRecord name url capability price)) ∧
    (∀ a success amount, jobsInv a → jobsInv (reportOutcomeUpdate a success amount)) ∧
    (∀ a rating, jobsInv a → jobsInv (rateUpdate a rating)) := by
  refine ⟨fun _ _ _ _ => rfl, fun a success amount h => ?_, fun a rating h => ?_⟩
  · cases success <;> simp [reportOutcomeUpdate, jobsInv] at h ⊢ <;> omega
  · by_cases hr : rating ≥ 3 <;> simp [rateUpdate, jobsInv, hr] at h ⊢ <;> omega

/-- Witness for the C5 invariant theorem at a concrete agent record. -/
theorem total_jobs_invariant_witness :
    jobsInv (newAgentRecord "A" "u" "c" 1) ∧
    jobsInv (reportOutcomeUpdate (newAgentRecord "A" "u" "c" 1) true 2) ∧
    jobsInv (rateUpdate (newAgentRecord "A" "u" "c" 1) 4) :=
  ⟨total_jobs_invariant.1 "A" "u" "c" 1,
   total_jobs_invariant.2.1 (newAgentRecord "A" "u" "c" 1) true 2
     (total_jobs_invariant.1 "A" "u" "c" 1),
   total_jobs_invariant.2.2 (newAgentRecord "A" "u" "c" 1) 4
     (total_jobs_invariant.1 "A" "u" "c" 1)⟩

/-- `rateUpdate` never changes the agent name. -/
theorem rateUpdate_name (a : AgentRecord) (r : ℚ) : (rateUpdate a r).name = a.name := by
  by_cases hr : r ≥ 3 <;> simp [rateUpdate, hr]

/-- Updating the row named `n` commutes with looking `n` up. -/
theorem findAgent_updateAgent (l : List AgentRecord) (n : String)
    (f : AgentRecord → AgentRecord) (hf : ∀ a, (f a).name = a.name) :
    findAgent (updateAgent l n f) n = (findAgent l n).map f := by
  induction l with
  | nil => rfl
  | cons a l ih =>
    by_cases h : a.name = n
    · have hpa : (a.name == n) = true := by simpa using h
      have hga : ((if a.name = n then f a else a).name == n) = true := by simp [h, hf a]
      simp only [updateAgent, List.map_cons, findAgent, List.find?, hga, hpa]
      simp [h]
    · have hpa : (a.name == n) = false := by simpa using h
      have hga : ((if a.name = n then f a else a).name == n) = false := by simp [h]
      simp only [updateAgent, List.map_cons, findAgent, List.find?, hga, hpa]
      exact ih

/-- C6: `rate_transaction` on an existing transaction whose seller exists
sets the seller's rating to `(oldRating * oldTotalJobs + r) / (oldTotalJobs + 1)`,
increments `total_jobs`, increments `successful_jobs` when `r ≥ 3.0` and
`failed_jobs` otherwise, and appends a FeedbackRecord; when the transaction
or the seller is missing it fails with `NotFound` changing nothing. -/
theorem rate_transaction_spec (s : RegistryState) (txid : ℕ) (r : ℚ)
    (fb : Option String) (wha : Bool) :
    (findTransaction s.transactions txid = none →
      rate_transaction s txid r fb wha = (s, some RegistryErr.notFound)) ∧
    (∀ tx, findTransaction s.transactions txid = some tx →
      findAgent s.agents tx.seller_name = none →
      rate_transaction s txid r fb wha = (s, some RegistryErr.notFound)) ∧
    (∀ tx ag, findTransaction s.transactions txid = some tx →
      findAgent s.agents tx.seller_name = some ag → 1 ≤ ag.rating →
      (rate_transaction s txid r fb wha).2 = none ∧
      findAgent (rate_transaction s txid r fb wha).1.agents tx.seller_name =
        some (rateUpdate ag r) ∧
      (rateUpdate ag r).rating = (ag.rating * ag.total_jobs + r) / (ag.total_jobs + 1) ∧
      (rateUpdate ag r).total_jobs = ag.total_jobs + 1 ∧
      (3 ≤ r → (rateUpdate ag r).successful_jobs = ag.successful_jobs + 1 ∧
        (rateUpdate ag r).failed_jobs = ag.failed_jobs) ∧
      (r < 3 → (rateUpdate ag r).failed_jobs = ag.failed_jobs + 1 ∧
        (rateUpdate ag r).successful_jobs = ag.successful_jobs) ∧
      (rate_transaction s txid r fb wha).1.feedback =
        s.feedback ++ [{ transaction_id := txid, agent_name := ag.name, rating := r,
                         feedback_text := fb, would_hire_again := wha }]) := by
  refine ⟨fun h => by simp [rate_transaction, h], fun tx htx hag => ?_, fun tx ag htx hag hr1 => ?_⟩
  · simp [rate_transaction, htx, hag]
  · have hnz : ag.rating ≠ 0 := by intro h0; rw [h0] at hr1; norm_num at hr1
    refine ⟨by simp [rate_transaction, htx, hag], ?_, ?_, ?_, ?_, ?_, ?_⟩
    · simp only [rate_transaction, htx, hag]
      rw [findAgent_updateAgent s.agents tx.seller_name _ (fun a => rateUpdate_name a r), hag]
      rfl
    · by_cases h3 : r ≥ 3 <;> simp [rateUpdate, h3, hnz]
    · by_cases h3 : r ≥ 3 <;> simp [rateUpdate, h3]
    · intro h3; simp [rateUpdate, h3]
    · intro h3; simp [rateUpdate, not_le.mpr h3]
    · simp [rate_transaction, htx, hag]

/-- A one-agent, one-transaction registry state used as the C6 witness. -/
def rateWitnessState : RegistryState :=
  { agents := [newAgentRecord "S" "u" "c" 1],
    transactions := [{ id := 1, buyer_id := some "B", seller_name := "S",
                       capability := "c", price := 1, success := true }],
    feedback := [] }

/-- Witness for the C6 theorem at a concrete transaction and seller. -/
theorem rate_transaction_spec_witness :
    (rate_transaction rateWitnessState 1 4 none true).2 = none ∧
    findAgent (rate_transaction rateWitnessState 1 4 none true).1.agents "S" =
      some (rateUpdate (newAgentRecord "S" "u" "c" 1) 4) ∧
    (rateUpdate (newAgentRecord "S" "u" "c" 1) 4).rating =
      ((newAgentRecord "S" "u" "c" 1).rating * (newAgentRecord "S" "u" "c" 1).total_jobs + 4) /
        ((newAgentRecord "S" "u" "c" 1).total_jobs + 1) ∧
    (rateUpdate (newAgentRecord "S" "u" "c" 1) 4).total_jobs =
      (newAgentRecord "S" "u" "c" 1).total_jobs + 1 ∧
    ((3 : ℚ) ≤ 4 → (rateUpdate (newAgentRecord "S" "u" "c" 1) 4).successful_jobs =
      (newAgentRecord "S" "u" "c" 1).successful_jobs + 1 ∧
      (rateUpdate (newAgentRecord "S" "u" "c" 1) 4).failed_jobs =
      (newAgentRecord "S" "u" "c" 1).failed_jobs) ∧
    ((4 : ℚ) < 3 → (rateUpdate (newAgentRecord "S" "u" "c" 1) 4).failed_jobs =
      (newAgentRecord "S" "u" "c" 1).failed_jobs + 1 ∧
      (rateUpdate (newAgentRecord "S" "u" "c" 1) 4).successful_jobs =
      (newAgentRecord "S" "u" "c" 1).successful_jobs) ∧
    (rate_transaction rateWitnessState 1 4 none true).1.feedback =
      rateWitnessState.feedback ++
        [{ transaction_id := 1, agent_name := (newAgentRecord "S" "u" "c" 1).name,
           rating := 4, feedback_text := none, would_hire_again := true }] := by
  have h := (rate_transaction_spec rateWitnessState 1 4 none true).2.2
    { id := 1, buyer_id := some "B", seller_name := "S", capability := "c",
      price := 1, success := true }
    (newAgentRecord "S" "u" "c" 1) rfl rfl (by norm_num [newAgentRecord])
  exact h

/-! ## Scoring engine (registry.py, calculate_agent_score) -/

/-- Buyer weight preferences as normalized by the `/search` handler. -/
structure Prefs where
  price_weight : ℚ
  quality_weight : ℚ
  speed_weight : ℚ
  reliability_weight : ℚ
deriving DecidableEq

/-- `calculate_agent_score` (registry.py lines 144-165).  Price and speed
sub-scores are `max(0, 1 - x / bound)` guarded by `bound > 0` (else 1.0);
quality and reliability are clamped to `[0, 1]`; `agent.rating or 5.0` and
`agent.success_rate or 100.0` are Python truthiness on a stored 0.0. -/
def calculate_agent_score (agent : AgentRecord) (max_price max_resp_time : ℚ)
    (prefs : Prefs) : ℚ :=
  let price_score := if max_price > 0 then max 0 (1 - agent.price / max_price) else 1
  let quality_score := max 0 (min 1 ((if agent.rating = 0 then 5 else agent.rating) / 5))
  let speed_score :=
    if max_resp_time > 0 then max 0 (1 - agent.avg_response_time / max_resp_time) else 1
  let reliability_score :=
    max 0 (min 1 ((if success_rate agent = 0 then 100 else success_rate agent) / 100))
  price_score * prefs.price_weight + quality_score * prefs.quality_weight +
    speed_score * prefs.speed_weight + reliability_score * prefs.reliability_weight

/-- C7: for two candidates identical except for price, the cheaper one
never scores lower, for every pair of normalization bounds and every
weight vector with `price_weight > 0` (the lower clamp of the price
sub-score preserves monotonicity even beyond the normalization maximum). -/
theorem score_monotone_in_price (a : AgentRecord) (p1 p2 max_price max_resp : ℚ)
    (prefs : Prefs) (hw : 0 < prefs.price_weight) (hp : p1 ≤ p2) :
    calculate_agent_score { a with price := p2 } max_price max_resp prefs ≤
      calculate_agent_score { a with price := p1 } max_price max_resp prefs := by
  have hsr : success_rate { a with price := p2 } = success_rate { a with price := p1 } := rfl
  by_cases hM : max_price > 0
  · have hdiv : p1 / max_price ≤ p2 / max_price := by
      apply div_le_div_of_nonneg_right hp hM.le
    have hps : max 0 (1 - p2 / max_price) ≤ max 0 (1 - p1 / max_price) :=
      max_le_max le_rfl (by linarith)
    simp only [calculate_agent_score, hsr, hM, if_pos]
    exact add_le_add (add_le_add (add_le_add
      (mul_le_mul_of_nonneg_right hps hw.le) le_rfl) le_rfl) le_rfl
  · simp [calculate_agent_score, hsr, hM]

/-- Witness for the C7 monotonicity theorem at concrete prices 1 ≤ 2. -/
theorem score_monotone_in_price_witness :
    calculate_agent_score { newAgentRecord "A" "u" "c" 1 with price := 2 } 2 1
        { price_weight := 1, quality_weight := 0, speed_weight := 0,
          reliability_weight := 0 } ≤
      calculate_agent_score { newAgentRecord "A" "u" "c" 1 with price := 1 } 2 1
        { price_weight := 1, quality_weight := 0, speed_weight := 0,
          reliability_weight := 0 } :=
  score_monotone_in_price (newAgentRecord "A" "u" "c" 1) 1 2 2 1
    { price_weight := 1, quality_weight := 0, speed_weight := 0, reliability_weight := 0 }
    (by norm_num) (by norm_num)

/-! ## Search (registry.py, search_agents) -/

/-- The `/search` candidate query (registry.py lines 308-315): exact
capability match plus the optional `max_price` / `min_rating` filters. -/
def searchCandidates (db : List AgentRecord) (capability : String)
    (max_price min_rating : Option ℚ) : List AgentRecord :=
  let cand0 := db.filter (fun a => a.capability == capability)
  let cand1 := match max_price with
    | some m => cand0.filter (fun a => decide (a.price ≤ m))
    | none => cand0
  match min_rating with
  | some mr => cand1.filter (fun a => decide (mr ≤ a.rating))
  | none => cand1

/-- The ranking order of `/search`: Python sorts by key `(-score, price)`
ascending, so `a` precedes `b` when `a` scores strictly higher, or the
scores are equal and `a` is no more expensive. -/
def searchRel (score : AgentRecord → ℚ) (a b : AgentRecord) : Prop :=
  score b < score a ∨ (score a = score b ∧ a.price ≤ b.price)

instance (score : AgentRecord → ℚ) : DecidableRel (searchRel score) := fun a b => by
  unfold searchRel; infer_instance

instance (score : AgentRecord → ℚ) : IsTotal AgentRecord (searchRel score) := by
  constructor
  intro a b
  rcases lt_trichotomy (score a) (score b) with h | h | h
  · exact Or.inr (Or.inl h)
  · rcases le_total a.price b.price with hp | hp
    · exact Or.inl (Or.inr ⟨h, hp⟩)
    · exact Or.inr (Or.inr ⟨h.symm, hp⟩)
  · exact Or.inl (Or.inl h)

instance (score : AgentRecord → ℚ) : IsTrans AgentRecord (searchRel score) := by
  constructor
  intro a b c hab hbc
  rcases hab with h1 | ⟨h1, hp1⟩
  · rcases hbc with h2 | ⟨h2, hp2⟩
    · exact Or.inl (h2.trans h1)
    · exact Or.inl (h2 ▸ h1)
  · rcases hbc with h2 | ⟨h2, hp2⟩
    · exact Or.inl (h1.symm ▸ h2)
    · exact Or.inr ⟨h1.trans h2, hp1.trans hp2⟩

/-- `/search` (registry.py lines 276-338).  `excludeSet` is the parsed
comma-separated `exclude` parameter and `db` the agents table in query
order.  Weights are renormalized to sum 1 (400 `invalidInput` when their
sum is ≤ 0); 404 `notFound` when no candidate survives the
capability/price/rating filters; the normalization maxima are taken over
the candidates BEFORE the exclusion filter; the non-excluded survivors are
sorted by descending score with ties by ascending price and the first
`limit` returned. -/
def search_agents (db : List AgentRecord) (capability : String) (limit : ℕ)
    (excludeSet : List String)
    (price_weight quality_weight speed_weight reliability_weight : ℚ)
    (max_price min_rating : Option ℚ) : Except RegistryErr (List AgentRecord) :=
  let total := price_weight + quality_weight + speed_weight + reliability_weight
  if total ≤ 0 then .error .invalidInput
  else
    let prefs : Prefs :=
      { price_weight := price_weight / total, quality_weight := quality_weight / total,
        speed_weight := speed_weight / total, reliability_weight := reliability_weight / total }
    let candidates := searchCandidates db capability max_price min_rating
    if candidates.isEmpty then .error .notFound
    else
      let max_price_val := pyMax (candidates.map (fun c => c.price)) 0
      let max_resp_time := pyMax (candidates.map (fun c => c.avg_response_time)) 0
      let score := fun c => calculate_agent_score c max_price_val max_resp_time prefs
      let scored := candidates.filter (fun c => !(excludeSet.contains c.name))
      .ok ((List.insertionSort (searchRel score) scored).take limit)

/-- C8: with valid weights, if at least one agent survives the capability
(and optional price/rating) filters then `/search` returns the non-excluded
survivors sorted by non-increasing score with score-ties broken by
ascending price, truncated to `limit`; if no agent matches the capability
it fails with 404 NotFound. -/
theorem search_agents_ranking (db : List AgentRecord) (capability : String)
    (limit : ℕ) (excludeSet : List String) (pw qw sw rw : ℚ) (mp mr : Option ℚ)
    (hw : 0 < pw + qw + sw + rw) :
    (db.filter (fun a => a.capability == capability) = [] →
      search_agents db capability limit excludeSet pw qw sw rw mp mr =
        Except.error RegistryErr.notFound) ∧
    (searchCandidates db capability mp mr ≠ [] →
      ∃ ranked : List AgentRecord,
        ranked.Perm ((searchCandidates db capability mp mr).filter
          (fun c => !(excludeSet.contains c.name))) ∧
        ranked.Sorted (searchRel (fun c => calculate_agent_score c
          (pyMax ((searchCandidates db capability mp mr).map (fun c => c.price)) 0)
          (pyMax ((searchCandidates db capability mp mr).map
            (fun c => c.avg_response_time)) 0)
          { price_weight := pw / (pw + qw + sw + rw),
            quality_weight := qw / (pw + qw + sw + rw),
            speed_weight := sw / (pw + qw + sw + rw),
            reliability_weight := rw / (pw + qw + sw + rw) })) ∧
        search_agents db capability limit excludeSet pw qw sw rw mp mr =
          Except.ok (ranked.take limit)) := by
  have hnw : ¬ (pw + qw + sw + rw ≤ 0) := not_le.mpr hw
  constructor
  · intro h
    have hc : searchCandidates db capability mp mr = [] := by
      cases mp <;> cases mr <;> simp [searchCandidates, h]
    simp [search_agents, hnw, hc]
  · intro hne
    refine ⟨_, List.perm_insertionSort _ _, List.sorted_insertionSort _ _, ?_⟩
    simp [search_agents, hnw, List.isEmpty_iff, hne]

/-- Witness for the C8 ranking theorem: a single matching agent, no
filters, weights (1,0,0,0). -/
theorem search_agents_ranking_witness :
    ∃ ranked : List AgentRecord,
      ranked.Perm ((searchCandidates [newAgentRecord "A" "u" "c" 1] "c" none none).filter
        (fun c => !(([] : List String).contains c.name))) ∧
      ranked.Sorted (searchRel (fun c => calculate_agent_score c
        (pyMax ((searchCandidates [newAgentRecord "A" "u" "c" 1] "c" none none).map
          (fun c => c.price)) 0)
        (pyMax ((searchCandidates [newAgentRecord "A" "u" "c" 1] "c" none none).map
          (fun c => c.avg_response_time)) 0)
        { price_weight := 1 / (1 + 0 + 0 + 0), quality_weight := 0 / (1 + 0 + 0 + 0),
          speed_weight := 0 / (1 + 0 + 0 + 0),
          reliability_weight := 0 / (1 + 0 + 0 + 0) })) ∧
      search_agents [newAgentRecord "A" "u" "c" 1] "c" 5 [] 1 0 0 0 none none =
        Except.ok (ranked.take 5) :=
  (search_agents_ranking [newAgentRecord "A" "u" "c" 1] "c" 5 [] 1 0 0 0 none none
    (by norm_num)).2 (by simp [searchCandidates, newAgentRecord])

/-- A surviving candidate: capability "c", price 1, rating 4. -/
def agentA : AgentRecord := { newAgentRecord "A" "uA" "c" 1 with rating := 4 }

/-- A surviving candidate: capability "c", price 2, rating 5. -/
def agentB : AgentRecord := { newAgentRecord "B" "uB" "c" 2 with rating := 5 }

/-- An excluded candidate with capability "c" and parametric price. -/
def agentX (p : ℚ) : AgentRecord := newAgentRecord "X" "uX" "c" p

/-- C10 (implicit): the 404 check runs on the filtered candidates BEFORE
the exclusion set is applied, so when candidates match the capability (and
optional filters) but all of them are excluded, `/search` succeeds with an
empty list instead of failing with NotFound.  Moreover the normalization
bounds are computed over all matching candidates including the excluded
ones: changing only the excluded agent X's price (2 versus 10) flips the
ranking of the two surviving agents A and B. -/
theorem search_succeeds_when_all_excluded (db : List AgentRecord) (capability : String)
    (limit : ℕ) (excludeSet : List String) (pw qw sw rw : ℚ) (mp mr : Option ℚ)
    (hw : 0 < pw + qw + sw + rw)
    (hne : searchCandidates db capability mp mr ≠ [])
    (hex : ∀ a ∈ searchCandidates db capability mp mr, excludeSet.contains a.name = true) :
    search_agents db capability limit excludeSet pw qw sw rw mp mr = Except.ok [] ∧
    (search_agents [agentA, agentB, agentX 2] "c" 5 ["X"] 1 1 0 0 none none =
        Except.ok [agentA, agentB] ∧
      search_agents [agentA, agentB, agentX 10] "c" 5 ["X"] 1 1 0 0 none none =
        Except.ok [agentB, agentA]) := by
  have hnw : ¬ (pw + qw + sw + rw ≤ 0) := not_le.mpr hw
  refine ⟨?_, ?_, ?_⟩
  · have hfilter : (searchCandidates db capability mp mr).filter
        (fun c => !decide (c.name ∈ excludeSet)) = [] := by
      rw [List.filter_eq_nil_iff]
      intro a ha
      simpa using hex a ha
    simp [search_agents, hnw, List.isEmpty_iff, hne, hfilter, List.insertionSort]
  · simp [search_agents, searchCandidates, agentA, agentB, agentX, newAgentRecord,
      pyMax, List.insertionSort, List.orderedInsert, searchRel, calculate_agent_score,
      success_rate, max_def, min_def]
    norm_num
  · simp [search_agents, searchCandidates, agentA, agentB, agentX, newAgentRecord,
      pyMax, List.insertionSort, List.orderedInsert, searchRel, calculate_agent_score,
      success_rate, max_def, min_def]
    norm_num

/-- Witness for the C10 theorem: all three matching agents excluded. -/
theorem search_succeeds_when_all_excluded_witness :
    search_agents [agentA, agentB, agentX 2] "c" 5 ["A", "B", "X"] 1 1 0 0 none none =
      Except.ok [] ∧
    (search_agents [agentA, agentB, agentX 2] "c" 5 ["X"] 1 1 0 0 none none =
        Except.ok [agentA, agentB] ∧
      search_agents [agentA, agentB, agentX 10] "c" 5 ["X"] 1 1 0 0 none none =
        Except.ok [agentB, agentA]) :=
  search_succeeds_when_all_excluded [agentA, agentB, agentX 2] "c" 5 ["A", "B", "X"]
    1 1 0 0 none none (by norm_num)
    (by simp [searchCandidates, agentA, agentB, agentX, newAgentRecord])
    (by intro a ha; fin_cases ha <;> rfl)

/-! ## Selection lottery (src/project_manager_agent.py, softmax_select_agent) -/

/-- One candidate dict as the PM agent receives it from the registry
(`rating` and `avg_response_time` are read with `dict.get`, so they may be
absent). -/
structure PMCandidate where
  name : String
  url : String
  price : ℚ
  rating : Option ℚ
  avg_response_time : Option ℚ
deriving DecidableEq

/-- The PM strategy weight dict (`price`, `quality`, `speed`). -/
structure PMWeights where
  price : ℚ
  quality : ℚ
  speed : ℚ
deriving DecidableEq

/-- `softmax_select_agent` (project_manager_agent.py lines 73-139).
The transcendental `math.exp` and the draw of `random.choices` are
abstract parameters (`expFn`, `choice`, `rand`), so theorems can quantify
over every randomness source; the non-overflow path of the `try` block is
modelled.  Empty input returns `None`; a single candidate is returned
directly before any score, exponential or random draw is computed. -/
def softmax_select_agent {R : Type} (candidates : List PMCandidate)
    (weights : PMWeights) (temperature : ℚ) (expFn : ℚ → ℚ)
    (choice : List PMCandidate → List ℚ → R → Option PMCandidate) (rand : R) :
    Option PMCandidate :=
  match candidates with
  | [] => none
  | [c] => some c
  | _ =>
    let scores := candidates.map (fun agent =>
      let max_price := pyMax (candidates.map (fun c => c.price)) 0
      let price_score := if max_price > 0 then (max_price - agent.price) / max_price else 0
      let quality_score := agent.rating.getD 3 / 5
      let max_latency := pyMax (candidates.map (fun c => c.avg_response_time.getD 1)) 0
      let speed_score :=
        if max_latency > 0 then (max_latency - agent.avg_response_time.getD (1/2)) / max_latency
        else 0
      price_score * weights.price + quality_score * weights.quality +
        speed_score * weights.speed)
    let exp_scores := scores.map (fun s => expFn (s / temperature))
    let total_exp := exp_scores.sum
    let probabilities :=
      if total_exp = 0 then List.replicate candidates.length ((1 : ℚ) / candidates.length)
      else exp_scores.map (fun s => s / total_exp)
    choice candidates probabilities rand

/-- C9: with exactly one candidate and any temperature T > 0, the lottery
returns that candidate directly and deterministically: the result is the
same for any two randomness sources, draw functions and exponential
implementations — none of them is consulted. -/
theorem softmax_single_candidate {R1 R2 : Type} (c : PMCandidate) (w : PMWeights)
    (T : ℚ) (hT : 0 < T) (expFn1 expFn2 : ℚ → ℚ)
    (choice1 : List PMCandidate → List ℚ → R1 → Option PMCandidate)
    (choice2 : List PMCandidate → List ℚ → R2 → Option PMCandidate)
    (r1 : R1) (r2 : R2) :
    softmax_select_agent [c] w T expFn1 choice1 r1 = some c ∧
    softmax_select_agent [c] w T expFn1 choice1 r1 =
      softmax_select_agent [c] w T expFn2 choice2 r2 :=
  ⟨rfl, rfl⟩

/-- The sole candidate used by the C9 witness. -/
def candA : PMCandidate :=
  { name := "A", url := "u", price := 1, rating := none, avg_response_time := none }

/-- Witness for the C9 single-candidate theorem with two different
randomness sources and draw functions. -/
theorem softmax_single_candidate_witness :
    softmax_select_agent [candA] { price := 1, quality := 1, speed := 1 } 1 id
      (fun _ _ (_ : Bool) => none) true = some candA ∧
    softmax_select_agent [candA] { price := 1, quality := 1, speed := 1 } 1 id
      (fun _ _ (_ : Bool) => none) true =
      softmax_select_agent [candA] { price := 1, quality := 1, speed := 1 } 1 id
        (fun cands _ (_ : ℕ) => cands.head?) 7 :=
  softmax_single_candidate candA { price := 1, quality := 1, speed := 1 } 1 (by norm_num)
    id id (fun _ _ (_ : Bool) => none) (fun cands _ (_ : ℕ) => cands.head?) true 7

end AIMarketplace
